import Mathlib

/-!
Shallow embedding of the statistical query/caching core of the
ilostat-simple-summarizer repository.

Embedded code:
* src/ilostat/_query.py  — class ILOStatQuery (structure fetch in __init__/_set_dsd,
  remote data call and response flattening in data()).
* src/countries.py       — the region-constraint crawl script (dataflow loop,
  constraint loop, REF_AREA member extraction, row inserts).
* src/app/controller.py  — AppController.set_dataframe (selection/params filtering,
  REF_AREA override by area).

Python dictionaries with string keys and values are embedded as association
lists (first-match lookup); remote I/O is embedded as explicit backend records
of functions, with a trace of the remote calls performed so that claims about
"no remote call" are statable.
-/

namespace ILOStatCore

/-- A Python dict with string keys and string values, as an association list. -/
abbrev Dict := List (String × String)

/-- A dataflow's dimension structure (the DSD obtained by _set_dsd):
the ordered dimension keys declared for the dataflow. -/
structure DSD where
  dims : List String
deriving Repr, DecidableEq

/-- One series of a returned dataset: the series key (dimension key → code, as
produced by sdmx for one dimension-code combination) together with its
observations, each a pair of time period and raw observation value
(none models a missing observation / NaN). -/
structure Series where
  dims : Dict
  obs : List (String × Option String)
deriving Repr, DecidableEq

/-- One result group of a remote data response (one DataSet of data_msg.data). -/
structure DataGroup where
  series : List Series
deriving Repr, DecidableEq

/-- A recorded remote data call: the arguments the code passes to
self._ilostat.data(self.dataflow, dsd=self._dsd, key=self.dimensions,
params=self.params). -/
structure DataCall where
  dataflow : String
  dsd : DSD
  key : Dict
  params : Dict
deriving Repr, DecidableEq

/-- Trace of remote round trips performed by a piece of query code:
the dataflow-structure fetches (calls of self._ilostat.dataflow) and the
remote data calls (calls of self._ilostat.data). -/
structure QueryTrace where
  structureFetches : List String
  dataCalls : List DataCall
deriving Repr, DecidableEq

/-- The remote catalog reached through sdmx.Client("ILO"), restricted to the
two operations ILOStatQuery uses: fetch a dataflow's structure, and run a
data query returning a list of result groups. -/
structure RemoteBackend where
  structures : String → Option DSD
  queryData : String → Dict → Dict → List DataGroup

/-- The state of an ILOStatQuery object after __init__ has run: the
constructor arguments plus the DSD stored by _set_dsd. -/
structure ILOStatQuery where
  dataflow : String
  dimensions : Dict
  params : Dict
  dsd : DSD
deriving Repr, DecidableEq

/-- ILOStatQuery.__init__ together with _set_dsd: fetch the dataflow message
for self.dataflow from the remote catalog and store its structure in
self._dsd. The fetch happens unconditionally at construction time; none is
returned when the catalog has no such dataflow (the Python code would raise
there). The trace records the one structure fetch performed. -/
def ILOStatQuery.init (backend : RemoteBackend) (dataflow : String)
    (dimensions : Dict) (params : Dict) : Option (ILOStatQuery × QueryTrace) :=
  match backend.structures dataflow with
  | none => none
  | some d =>
    some (⟨dataflow, dimensions, params, d⟩, ⟨[dataflow], []⟩)

/-- Normalization of one observation cell as it lands in the value column:
a missing observation is NaN (none) and an empty observation string is
likewise null in the tabular result. -/
def normalizeValue : Option String → Option String
  | none => none
  | some s => if s = "" then none else some s

/-- One row of the tabular result: column name → cell (none models NaN/null). -/
abbrev Row := List (String × Option String)

/-- Modelled from the spec: the flattening performed by sdmx.to_pandas followed
by reset_index(name="value") in ILOStatQuery.data (these library calls are not
part of this repository). Each series contributes one row per observation; the
row carries the series's dimension codes as columns, the observation's time
period under TIME_PERIOD, and its normalized value under value. -/
def flattenSeries (s : Series) : List Row :=
  s.obs.map fun o =>
    (s.dims.map fun p => (p.1, some p.2))
      ++ [("TIME_PERIOD", some o.1), ("value", normalizeValue o.2)]

/-- Flattening of a list of series, series by series in order. -/
def flattenSeriesList : List Series → List Row
  | [] => []
  | s :: rest => flattenSeries s ++ flattenSeriesList rest

/-- Flattening of one result group. -/
def flattenGroup (g : DataGroup) : List Row :=
  flattenSeriesList g.series

/-- ILOStatQuery.data: perform the remote data call with the stored dataflow,
DSD, dimensions and params, then take data_msg.data[0] and flatten it into the
tabular result. The remote call is performed unconditionally and is recorded
in the trace; an empty group list makes the indexing fail (none — the Python
code would raise IndexError there, after the remote call). -/
def ILOStatQuery.data (q : ILOStatQuery) (backend : RemoteBackend) :
    Option (List Row) × QueryTrace :=
  let groups := backend.queryData q.dataflow q.dimensions q.params
  let result :=
    match groups with
    | [] => none
    | g :: _ => some (flattenGroup g)
  (result, ⟨[], [⟨q.dataflow, q.dsd, q.dimensions, q.params⟩]⟩)

/-- The dict comprehension of AppController.set_dataframe that keeps only the
entries with a truthy (non-empty) value. -/
def filterNonEmpty (d : Dict) : Dict :=
  d.filter fun p => decide (p.2 ≠ "")

/-- Python dict assignment d[k] = v on an association list: replace the value
at an existing key, otherwise append the new entry. -/
def dictSet (d : Dict) (k v : String) : Dict :=
  if d.any fun p => p.1 == k then
    d.map fun p => if p.1 == k then (k, v) else p
  else
    d ++ [(k, v)]

/-- The dimension selection AppController.set_dataframe sends to the query:
drop entries with empty values, then, when the area argument is truthy,
assign dimensions[REF_AREA] = area. -/
def set_dataframe_key (area : String) (dimensions : Dict) : Dict :=
  if area = "" then filterNonEmpty dimensions
  else dictSet (filterNonEmpty dimensions) "REF_AREA" area

/-- The params AppController.set_dataframe sends to the query: startPeriod and
endPeriod, keeping only the truthy (non-empty) values. -/
def buildParams (start_period end_period : String) : Dict :=
  filterNonEmpty [("startPeriod", start_period), ("endPeriod", end_period)]

/-! Embedding of src/countries.py: the crawl that walks every dataflow's
constraints and inserts one (region, dataflow) row per permitted REF_AREA
member value. The script has no exception handling, so the first error of any
kind ends the whole run; rows are inserted (and committed) one by one as they
are produced, so the rows emitted before an abort are kept. The crawl
functions therefore return the list of rows inserted so far together with an
optional error describing the abort. -/

/-- A member set of a content region: the values of cr.member[dimension]
(each member_value.value is a region code string). -/
structure MemberSet where
  values : List String
deriving Repr, DecidableEq

/-- One content region of a constraint: its member sets keyed by dimension. -/
structure ContentRegion where
  member : List (String × MemberSet)
deriving Repr, DecidableEq

/-- One constraint of a dataflow, exposing its data content regions. -/
structure CubeConstraint where
  data_content_region : List ContentRegion
deriving Repr, DecidableEq

/-- The remote catalog as the crawl sees it: the dataflow ids listed by the
initial dataflow message, and for each id the constraints of the per-id
dataflow message. Fetching one dataflow's constraints may fail (network or
parse error), which the error side models. -/
structure CrawlCatalog where
  dataflows : List String
  constraintsOf : String → Except String (List CubeConstraint)

/-- Processing of one constraint in the inner loop of countries.py:
take constraint.data_content_region[0] (IndexError when there is none), look
up members[REF_AREA] (KeyError when the first content region has no REF_AREA
member set), and produce one (member_value.value, dataflow_id) row per member
value. Both failures are uncaught in the script. -/
def crawlConstraint (dataflow_id : String) (c : CubeConstraint) :
    Except String (List (String × String)) :=
  match c.data_content_region with
  | [] => .error "IndexError: data_content_region"
  | cr :: _ =>
    match cr.member.lookup "REF_AREA" with
    | none => .error "KeyError: REF_AREA"
    | some ref_area => .ok (ref_area.values.map fun v => (v, dataflow_id))

/-- The constraint loop for one dataflow: constraints are processed in order;
rows of the constraints processed before a failure are kept (they were already
inserted and committed), and the first failure aborts with its error. -/
def crawlConstraints (dataflow_id : String) :
    List CubeConstraint → List (String × String) × Option String
  | [] => ([], none)
  | c :: rest =>
    match crawlConstraint dataflow_id c with
    | .error e => ([], some e)
    | .ok rows =>
      let (r, e) := crawlConstraints dataflow_id rest
      (rows ++ r, e)

/-- The dataflow loop of countries.py over a list of dataflow ids: fetch each
dataflow's constraints and run the constraint loop; any error (a failed
constraint fetch, or a failure inside the constraint loop) aborts the whole
run, keeping the rows inserted up to that point. -/
def crawlGo (cat : CrawlCatalog) : List String → List (String × String) × Option String
  | [] => ([], none)
  | d :: rest =>
    match cat.constraintsOf d with
    | .error e => ([], some e)
    | .ok cs =>
      match crawlConstraints d cs with
      | (rows, some e) => (rows, some e)
      | (rows, none) =>
        let (r, e) := crawlGo cat rest
        (rows ++ r, e)

/-- One run of the countries.py crawl over the whole catalog: the (region,
dataflow) rows inserted into the dataflows table, in insertion order, plus the
error that aborted the run, if any. -/
def crawlRun (cat : CrawlCatalog) : List (String × String) × Option String :=
  crawlGo cat cat.dataflows

/-- Modelled from the spec: the dataflows(region, dataflow) table created by
init_db (imported by countries.py but absent from the sources). Per the spec,
the original source does not enforce a uniqueness constraint on the (region,
dataflow) pair, so the table is a plain list of rows and every INSERT appends
unconditionally. Running the crawl appends exactly the rows it emits. -/
def crawlAndStore (cat : CrawlCatalog) (store : List (String × String)) :
    List (String × String) :=
  store ++ (crawlRun cat).1

/-! Helper lemmas. -/

lemma filterNonEmpty_values_nonempty (d : Dict) :
    ∀ p ∈ filterNonEmpty d, p.2 ≠ "" := by
  intro p hp
  exact of_decide_eq_true (List.mem_filter.mp hp).2

lemma dictSet_values_nonempty (d : Dict) (k v : String)
    (hd : ∀ p ∈ d, p.2 ≠ "") (hv : v ≠ "") :
    ∀ p ∈ dictSet d k v, p.2 ≠ "" := by
  intro p hp
  unfold dictSet at hp
  split at hp
  · obtain ⟨a, ha, rfl⟩ := List.mem_map.mp hp
    split
    · exact hv
    · exact hd a ha
  · rcases List.mem_append.mp hp with h | h
    · exact hd p h
    · have : p = (k, v) := by simpa using h
      rw [this]
      exact hv

lemma set_dataframe_key_values_nonempty (area : String) (dimensions : Dict) :
    ∀ p ∈ set_dataframe_key area dimensions, p.2 ≠ "" := by
  unfold set_dataframe_key
  split
  · exact filterNonEmpty_values_nonempty dimensions
  · exact dictSet_values_nonempty _ _ _
      (filterNonEmpty_values_nonempty dimensions) (by assumption)

lemma buildParams_values_nonempty (start_period end_period : String) :
    ∀ p ∈ buildParams start_period end_period, p.2 ≠ "" :=
  filterNonEmpty_values_nonempty _

lemma lookup_append_of_not_mem (d : Dict) (k v : String)
    (h : ∀ p ∈ d, p.1 ≠ k) : (d ++ [(k, v)]).lookup k = some v := by
  induction d with
  | nil => simp [List.lookup]
  | cons a rest ih =>
    have ha : (k == a.1) = false :=
      beq_eq_false_iff_ne.mpr fun he => (h a (by simp)) he.symm
    simp only [List.cons_append, List.lookup, ha]
    exact ih fun p hp => h p (by simp [hp])

lemma lookup_map_replace (d : Dict) (k v : String)
    (h : d.any (fun p => p.1 == k) = true) :
    (d.map fun p => if p.1 == k then (k, v) else p).lookup k = some v := by
  induction d with
  | nil => simp at h
  | cons a rest ih =>
    obtain ⟨a1, a2⟩ := a
    by_cases hak : a1 = k
    · have hb : (a1 == k) = true := beq_iff_eq.mpr hak
      simp only [List.map_cons]
      rw [if_pos hb]
      simp [List.lookup]
    · have hb : (a1 == k) = false := beq_eq_false_iff_ne.mpr hak
      have hk : (k == a1) = false := beq_eq_false_iff_ne.mpr (Ne.symm hak)
      have h' : rest.any (fun p => p.1 == k) = true := by
        simpa [List.any, hb] using h
      simp only [List.map_cons]
      rw [if_neg (by simp [hb])]
      simp only [List.lookup, hk]
      exact ih h'

lemma lookup_dictSet (d : Dict) (k v : String) : (dictSet d k v).lookup k = some v := by
  unfold dictSet
  split
  · exact lookup_map_replace d k v (by assumption)
  · apply lookup_append_of_not_mem
    intro p hp he
    rename_i hany
    exact hany (List.any_eq_true.mpr ⟨p, hp, beq_iff_eq.mpr he⟩)

lemma normalizeValue_ne_empty_string (v : Option String) :
    normalizeValue v ≠ some "" := by
  unfold normalizeValue
  cases v with
  | none => simp
  | some s =>
    split
    · simp
    · rename_i h
      simp [h]

lemma flattenSeriesList_length (l : List Series) :
    (flattenSeriesList l).length = (l.map fun s => s.obs.length).sum := by
  induction l with
  | nil => rfl
  | cons s rest ih =>
    simp [flattenSeriesList, flattenSeries, ih]

lemma flattenSeriesList_row_shape (l : List Series) (row : Row)
    (h : row ∈ flattenSeriesList l) :
    (∃ t, ("TIME_PERIOD", some t) ∈ row) ∧
    ∃ v, ("value", v) ∈ row ∧ v ≠ some "" := by
  induction l with
  | nil => cases h
  | cons s rest ih =>
    rcases List.mem_append.mp h with h' | h'
    · obtain ⟨o, _, rfl⟩ := List.mem_map.mp h'
      refine ⟨⟨o.1, by simp⟩, normalizeValue o.2, by simp, ?_⟩
      exact normalizeValue_ne_empty_string o.2
    · exact ih h'

lemma init_some_elim (backend : RemoteBackend) (dataflow : String)
    (dimensions params : Dict) (q : ILOStatQuery) (tr : QueryTrace)
    (h : ILOStatQuery.init backend dataflow dimensions params = some (q, tr)) :
    q.dataflow = dataflow ∧ q.dimensions = dimensions ∧ q.params = params ∧
    backend.structures dataflow = some q.dsd ∧ tr = ⟨[dataflow], []⟩ := by
  unfold ILOStatQuery.init at h
  cases hs : backend.structures dataflow with
  | none => rw [hs] at h; cases h
  | some d =>
    rw [hs] at h
    injection h with h'
    injection h' with hq htr
    subst hq htr
    exact ⟨rfl, rfl, rfl, rfl, rfl⟩

/-! Claim theorems. -/

/-- C5: for every remote response containing one or more result groups, query
execution builds its result from exactly the first group; the result is the
flattening of the first group alone, so the (universally quantified) remaining
groups contribute no rows to it. -/
theorem data_uses_first_group_only
    (backend : RemoteBackend) (q : ILOStatQuery) (g : DataGroup)
    (rest : List DataGroup)
    (h : backend.queryData q.dataflow q.dimensions q.params = g :: rest) :
    (q.data backend).1 = some (flattenGroup g) := by
  simp [ILOStatQuery.data, h]

/-- Witness for C5: against a backend returning two groups, the result is the
flattening of the first group; the second group contributes no rows. -/
theorem data_uses_first_group_only_witness :
    ((⟨"DF", [], [], ⟨["FREQ"]⟩⟩ : ILOStatQuery).data
        ⟨fun _ => some ⟨["FREQ"]⟩, fun _ _ _ =>
          [⟨[⟨[("FREQ", "A")], [("2015", some "1")]⟩]⟩,
           ⟨[⟨[("FREQ", "B")], [("2016", some "2")]⟩]⟩]⟩).1
      = some (flattenGroup ⟨[⟨[("FREQ", "A")], [("2015", some "1")]⟩]⟩) :=
  data_uses_first_group_only
    ⟨fun _ => some ⟨["FREQ"]⟩, fun _ _ _ =>
      [⟨[⟨[("FREQ", "A")], [("2015", some "1")]⟩]⟩,
       ⟨[⟨[("FREQ", "B")], [("2016", some "2")]⟩]⟩]⟩
    ⟨"DF", [], [], ⟨["FREQ"]⟩⟩
    ⟨[⟨[("FREQ", "A")], [("2015", some "1")]⟩]⟩
    [⟨[⟨[("FREQ", "B")], [("2016", some "2")]⟩]⟩] rfl

/-- C9: every row of a query result carries a TIME_PERIOD column and a value
column, there is one row per dimension-code combination and time period of the
chosen group, and the value cell is never the empty string (empty observations
are normalized to null). The query's selection and params are arbitrary, so
this holds in particular for an empty selection with no params. -/
theorem query_rows_have_time_and_value
    (backend : RemoteBackend) (q : ILOStatQuery) (g : DataGroup)
    (rest : List DataGroup) (rows : List Row)
    (h1 : backend.queryData q.dataflow q.dimensions q.params = g :: rest)
    (h2 : (q.data backend).1 = some rows) :
    rows.length = (g.series.map fun s => s.obs.length).sum ∧
    ∀ row ∈ rows, (∃ t, ("TIME_PERIOD", some t) ∈ row) ∧
      ∃ v, ("value", v) ∈ row ∧ v ≠ some "" := by
  have hrows : rows = flattenGroup g := by
    simp [ILOStatQuery.data, h1] at h2
    exact h2.symm
  subst hrows
  exact ⟨flattenSeriesList_length g.series,
    fun row hrow => flattenSeriesList_row_shape g.series row hrow⟩

/-- Witness for C9: a query with an empty selection and no params, against a
backend returning one group with observations for 2015 and a missing value for
2016, yields two rows, each carrying TIME_PERIOD and value columns. -/
theorem query_rows_have_time_and_value_witness :
    (flattenGroup ⟨[⟨[("FREQ", "A")], [("2015", some "3.5"), ("2016", none)]⟩]⟩).length
        = (([⟨[("FREQ", "A")], [("2015", some "3.5"), ("2016", none)]⟩] : List Series).map
            fun s => s.obs.length).sum ∧
    ∀ row ∈ flattenGroup ⟨[⟨[("FREQ", "A")], [("2015", some "3.5"), ("2016", none)]⟩]⟩,
      (∃ t, ("TIME_PERIOD", some t) ∈ row) ∧
      ∃ v, ("value", v) ∈ row ∧ v ≠ some "" :=
  query_rows_have_time_and_value
    ⟨fun _ => some ⟨["FREQ"]⟩, fun _ _ _ =>
      [⟨[⟨[("FREQ", "A")], [("2015", some "3.5"), ("2016", none)]⟩]⟩]⟩
    ⟨"DF_Y", [], [], ⟨["FREQ"]⟩⟩
    ⟨[⟨[("FREQ", "A")], [("2015", some "3.5"), ("2016", none)]⟩]⟩ []
    (flattenGroup ⟨[⟨[("FREQ", "A")], [("2015", some "3.5"), ("2016", none)]⟩]⟩)
    rfl rfl

/-- C8: for a dataflow whose first content region exposes a REF_AREA member
set, the crawl completes without error and emits exactly one (region,
dataflow) entry per permitted region code of that member set, in order,
paired with the dataflow id. -/
theorem crawl_emits_entry_per_region
    (dataflow_id : String) (cr : ContentRegion) (crRest : List ContentRegion)
    (regions : List String)
    (h : cr.member.lookup "REF_AREA" = some ⟨regions⟩) :
    crawlRun ⟨[dataflow_id], fun _ => .ok [⟨cr :: crRest⟩]⟩
      = (regions.map fun r => (r, dataflow_id), none) := by
  simp [crawlRun, crawlGo, crawlConstraints, crawlConstraint, h]

/-- Witness for C8: the dataflow DF_X with one constraint whose region member
set is ITA, FRA yields exactly the pairs (ITA, DF_X) and (FRA, DF_X). -/
theorem crawl_emits_entry_per_region_witness :
    crawlRun ⟨["DF_X"], fun _ => .ok [⟨[⟨[("REF_AREA", ⟨["ITA", "FRA"]⟩)]⟩]⟩]⟩
      = ([("ITA", "DF_X"), ("FRA", "DF_X")], none) :=
  crawl_emits_entry_per_region "DF_X" ⟨[("REF_AREA", ⟨["ITA", "FRA"]⟩)]⟩ []
    ["ITA", "FRA"] rfl

/-- C7: the dimension selection and params with which set_dataframe builds its
query reach the remote data call with every empty-valued selection entry and
every empty params entry dropped: each remote data call performed by the
query receives only non-empty selection values and non-empty params. -/
theorem remote_call_receives_nonempty_values
    (backend : RemoteBackend) (area dataflow : String) (dimensions : Dict)
    (start_period end_period : String) (q : ILOStatQuery) (tr : QueryTrace)
    (h : ILOStatQuery.init backend dataflow (set_dataframe_key area dimensions)
        (buildParams start_period end_period) = some (q, tr)) :
    ∀ call ∈ (q.data backend).2.dataCalls,
      (∀ p ∈ call.key, p.2 ≠ "") ∧ ∀ p ∈ call.params, p.2 ≠ "" := by
  intro call hcall
  obtain ⟨hdf, hdims, hparams, hdsd, htr⟩ := init_some_elim _ _ _ _ _ _ h
  have hc : call = ⟨q.dataflow, q.dsd, q.dimensions, q.params⟩ := by
    simpa [ILOStatQuery.data] using hcall
  rw [hc]
  refine ⟨fun p hp => ?_, fun p hp => ?_⟩
  · refine set_dataframe_key_values_nonempty area dimensions p ?_
    rw [← hdims]
    exact hp
  · refine buildParams_values_nonempty start_period end_period p ?_
    rw [← hparams]
    exact hp

/-- Witness for C7: the area ITA with a selection whose SEX value is empty and
an empty endPeriod; the remote call receives only non-empty values. -/
theorem remote_call_receives_nonempty_values_witness :
    (∀ p ∈ (⟨"DF", ⟨["FREQ"]⟩, set_dataframe_key "ITA" [("SEX", "")],
        buildParams "2015" ""⟩ : DataCall).key, p.2 ≠ "") ∧
    ∀ p ∈ (⟨"DF", ⟨["FREQ"]⟩, set_dataframe_key "ITA" [("SEX", "")],
        buildParams "2015" ""⟩ : DataCall).params, p.2 ≠ "" :=
  remote_call_receives_nonempty_values ⟨fun _ => some ⟨["FREQ"]⟩, fun _ _ _ => []⟩
    "ITA" "DF" [("SEX", "")] "2015" ""
    ⟨"DF", set_dataframe_key "ITA" [("SEX", "")], buildParams "2015" "", ⟨["FREQ"]⟩⟩
    ⟨["DF"], []⟩ rfl
    ⟨"DF", ⟨["FREQ"]⟩, set_dataframe_key "ITA" [("SEX", "")], buildParams "2015" ""⟩
    (List.Mem.head _)

/-- C10: every remote data call performed by the query that set_dataframe
builds carries, for a non-empty area argument, the REF_AREA dimension set to
that area (overwriting any REF_AREA entry of the caller-supplied selection);
for an empty area argument, the REF_AREA value of the filtered caller-supplied
selection (if any) is passed through unchanged. -/
theorem set_dataframe_ref_area_override
    (backend : RemoteBackend) (area dataflow : String) (dimensions : Dict)
    (start_period end_period : String) (q : ILOStatQuery) (tr : QueryTrace)
    (h : ILOStatQuery.init backend dataflow (set_dataframe_key area dimensions)
        (buildParams start_period end_period) = some (q, tr)) :
    ∀ call ∈ (q.data backend).2.dataCalls,
      (area ≠ "" → call.key.lookup "REF_AREA" = some area) ∧
      (area = "" → call.key.lookup "REF_AREA"
          = (filterNonEmpty dimensions).lookup "REF_AREA") := by
  intro call hcall
  obtain ⟨hdf, hdims, hparams, hdsd, htr⟩ := init_some_elim _ _ _ _ _ _ h
  have hc : call = ⟨q.dataflow, q.dsd, q.dimensions, q.params⟩ := by
    simpa [ILOStatQuery.data] using hcall
  rw [hc]
  constructor
  · intro hne
    have : q.dimensions = dictSet (filterNonEmpty dimensions) "REF_AREA" area := by
      rw [hdims]
      unfold set_dataframe_key
      rw [if_neg hne]
    simp only [this]
    exact lookup_dictSet _ _ _
  · intro he
    have : q.dimensions = filterNonEmpty dimensions := by
      rw [hdims]
      unfold set_dataframe_key
      rw [if_pos he]
    simp only [this]

/-- Witness for C10: with area ITA and a selection already containing
REF_AREA = FRA, the remote call's selection has REF_AREA = ITA. -/
theorem set_dataframe_ref_area_override_witness :
    (⟨"DF", ⟨["FREQ"]⟩, set_dataframe_key "ITA" [("REF_AREA", "FRA")],
        buildParams "" ""⟩ : DataCall).key.lookup "REF_AREA" = some "ITA" :=
  (set_dataframe_ref_area_override ⟨fun _ => some ⟨["FREQ"]⟩, fun _ _ _ => []⟩
    "ITA" "DF" [("REF_AREA", "FRA")] "" ""
    ⟨"DF", set_dataframe_key "ITA" [("REF_AREA", "FRA")], buildParams "" "", ⟨["FREQ"]⟩⟩
    ⟨["DF"], []⟩ rfl
    ⟨"DF", ⟨["FREQ"]⟩, set_dataframe_key "ITA" [("REF_AREA", "FRA")], buildParams "" ""⟩
    (List.Mem.head _)).1 (by decide)

/-- C1: evaluation of the code at a selection containing the key BOGUS, which
is absent from the dataflow structure's dimension key set (the structure
declares only FREQ). Query construction succeeds, and executing the query
performs exactly one remote data call whose key still contains BOGUS, and the
call returns a result — no InvalidDimensionKey failure occurs and the remote
data operation is invoked. This contradicts the claim that execution fails
before any remote call. -/
theorem query_invalid_key_performs_remote_call :
    (ILOStatQuery.init
        ⟨fun _ => some ⟨["FREQ"]⟩,
         fun _ _ _ => [⟨[⟨[("FREQ", "A")], [("2015", some "1")]⟩]⟩]⟩
        "DF_UNE" [("BOGUS", "X")] []).map
      (fun p =>
        ((p.1.data ⟨fun _ => some ⟨["FREQ"]⟩,
            fun _ _ _ => [⟨[⟨[("FREQ", "A")], [("2015", some "1")]⟩]⟩]⟩).2.dataCalls.map
          (fun c => c.key),
         (p.1.data ⟨fun _ => some ⟨["FREQ"]⟩,
            fun _ _ _ => [⟨[⟨[("FREQ", "A")], [("2015", some "1")]⟩]⟩]⟩).1.isSome))
      = some ([[("BOGUS", "X")]], true) ∧
    "BOGUS" ∉ (⟨["FREQ"]⟩ : DSD).dims :=
  ⟨rfl, by decide⟩

/-- C2: evaluation of crawl-and-store twice against the unchanged one-dataflow
catalog DF_X with region member set ITA, starting from an empty store. The
first run stores one row; the second run appends the same row again, so the
rerun's row set is not the first run's row set and contains a duplicate
(region, dataflow) pair — the store enforces no uniqueness, contradicting the
claim of idempotence. -/
theorem crawl_store_rerun_duplicates :
    crawlAndStore ⟨["DF_X"], fun _ => .ok [⟨[⟨[("REF_AREA", ⟨["ITA"]⟩)]⟩]⟩]⟩
        (crawlAndStore ⟨["DF_X"], fun _ => .ok [⟨[⟨[("REF_AREA", ⟨["ITA"]⟩)]⟩]⟩]⟩ [])
      = [("ITA", "DF_X"), ("ITA", "DF_X")] ∧
    crawlAndStore ⟨["DF_X"], fun _ => .ok [⟨[⟨[("REF_AREA", ⟨["ITA"]⟩)]⟩]⟩]⟩ []
      = [("ITA", "DF_X")] ∧
    ¬ ([("ITA", "DF_X"), ("ITA", "DF_X")] : List (String × String)).Nodup :=
  ⟨rfl, rfl, by decide⟩

/-- C3: evaluation of the crawl at a catalog of three dataflows where the
second dataflow's constraint fetch fails with a network error. The crawl
aborts at the second dataflow: it emits the entry of dataflow D1, surfaces the
error, and never emits the entry of dataflow D3 — contradicting the claim
that the crawl continues past a failed constraint fetch and still emits the
entries of every other dataflow. -/
theorem crawl_aborts_on_failed_constraint_fetch :
    crawlRun ⟨["D1", "D2", "D3"], fun id =>
        if id = "D2" then .error "ConnectionError"
        else .ok [⟨[⟨[("REF_AREA", ⟨[if id = "D1" then "AAA" else "CCC"]⟩)]⟩]⟩]⟩
      = ([("AAA", "D1")], some "ConnectionError") ∧
    ("CCC", "D3") ∉ [("AAA", "D1")] :=
  ⟨rfl, by decide⟩

/-- C4: evaluation of the crawl at a one-dataflow catalog whose single
constraint's first content region has member sets for FREQ only, with no
REF_AREA member set. The crawl aborts with the uncaught KeyError from the
members[REF_AREA] access, emitting no entries and reporting an error —
contradicting the claim that such a constraint is skipped without failing the
crawl. -/
theorem crawl_aborts_on_missing_ref_area :
    crawlRun ⟨["D1"], fun _ => .ok [⟨[⟨[("FREQ", ⟨["A"]⟩)]⟩]⟩]⟩
      = ([], some "KeyError: REF_AREA") := rfl

/-- C6 counterexample: resolving the structure of the dataflow DF is
constructing an ILOStatQuery for it, and every such construction performs a
remote structure fetch — the trace of a resolve of DF performed after any
earlier resolve of DF still records one remote round trip for DF, not none.
There is no cache keyed by dataflow id, so a subsequent resolve of the same id
is not served without a remote round trip, contrary to the claim. -/
theorem resolve_same_id_performs_remote_fetch :
    (ILOStatQuery.init ⟨fun _ => some ⟨["FREQ"]⟩, fun _ _ _ => []⟩ "DF" [] []).map
        (fun p => p.2.structureFetches)
      = some ["DF"] ∧ (["DF"] : List String) ≠ [] :=
  ⟨rfl, by decide⟩

/-- C6 (amended): structure caching is per query instance, not per dataflow
id: constructing an ILOStatQuery fetches the dataflow's structure from the
remote catalog exactly once and stores it, and executing the query performs no
further structure fetch — the stored structure is passed to the remote data
call unchanged. -/
theorem structure_fetched_once_per_query_instance
    (backend : RemoteBackend) (dataflow : String) (dimensions params : Dict)
    (q : ILOStatQuery) (tr : QueryTrace)
    (h : ILOStatQuery.init backend dataflow dimensions params = some (q, tr)) :
    tr.structureFetches = [dataflow] ∧
    backend.structures dataflow = some q.dsd ∧
    (q.data backend).2.structureFetches = [] ∧
    ∀ call ∈ (q.data backend).2.dataCalls, call.dsd = q.dsd := by
  obtain ⟨hdf, hdims, hparams, hdsd, htr⟩ := init_some_elim _ _ _ _ _ _ h
  refine ⟨by rw [htr], hdsd, rfl, ?_⟩
  intro call hcall
  have hc : call = ⟨q.dataflow, q.dsd, q.dimensions, q.params⟩ := by
    simpa [ILOStatQuery.data] using hcall
  rw [hc]

/-- Witness for the amended C6: a concrete query construction for DF fetches
the structure once, stores it, and its execution performs no structure
fetch. -/
theorem structure_fetched_once_per_query_instance_witness :
    (⟨["DF"], []⟩ : QueryTrace).structureFetches = ["DF"] ∧
    (⟨fun _ => some ⟨["FREQ"]⟩, fun _ _ _ => []⟩ : RemoteBackend).structures "DF"
        = some (⟨"DF", [], [], ⟨["FREQ"]⟩⟩ : ILOStatQuery).dsd ∧
    ((⟨"DF", [], [], ⟨["FREQ"]⟩⟩ : ILOStatQuery).data
        ⟨fun _ => some ⟨["FREQ"]⟩, fun _ _ _ => []⟩).2.structureFetches = [] ∧
    ∀ call ∈ ((⟨"DF", [], [], ⟨["FREQ"]⟩⟩ : ILOStatQuery).data
        ⟨fun _ => some ⟨["FREQ"]⟩, fun _ _ _ => []⟩).2.dataCalls,
      call.dsd = (⟨"DF", [], [], ⟨["FREQ"]⟩⟩ : ILOStatQuery).dsd :=
  structure_fetched_once_per_query_instance
    ⟨fun _ => some ⟨["FREQ"]⟩, fun _ _ _ => []⟩ "DF" [] []
    ⟨"DF", [], [], ⟨["FREQ"]⟩⟩ ⟨["DF"], []⟩ rfl

end ILOStatCore
